import Mathlib

/- Shallow embedding of the NotePy source (src/main.py): the persisted
preference state (AppState, load_state, save_state), the recent-files
operations (MainWindow._add_recent, MainWindow._open_recent), the document
tab model (DocumentTab: title, load_file, save_to) and the path-eliding
helper (elide_middle).

Modelling conventions:
* JSON values are the inductive `Json` below; the textual encode/decode pair
  json.dumps / json.loads is abstracted away, so the persisted settings file
  is modelled as a `StoreContent`: missing, empty text, text that is not
  valid JSON, or a parsed JSON value.  json.loads raises ValueError both on
  empty text and on malformed text, and load_state catches every exception,
  so the first three cases all reach the `except` arm of load_state.
  JSON number literals that are not integers do not occur in any property
  checked here and are left out of the model.
* Python attributes are dynamically typed: a field annotated `bool` can hold
  any JSON value after `setattr`.  `RawState` therefore gives every field the
  type `Json`; after load_state's explicit post-processing of recent_files
  (non-list replaced by [], non-string entries dropped) the resulting
  `AppState` has `recent_files : List String` while the three scalar fields
  stay `Json`-typed, exactly as in the source, where nothing ever checks
  their types.  JSON keys that are not one of the four dataclass fields are
  skipped by the `hasattr` guard and are not modelled further.
* File-system reads/writes and Qt widgets are external collaborators: reads
  and writes are passed in as functions returning `Except IoErrorKind`,
  Path.resolve is an abstract `normalize` parameter, Path.exists an abstract
  predicate, and the Qt document's isModified flag is the Boolean field
  `dirty` of `DocumentTab` (a user edit sets it, setModified False clears
  it). -/

/-- JSON values, as produced by json.loads (integers only, see above). -/
inductive Json where
  | null : Json
  | bool (b : Bool) : Json
  | num (n : Int) : Json
  | str (s : String) : Json
  | arr (xs : List Json) : Json
  | obj (fields : List (String × Json)) : Json

/-- The observable state of the settings file `~/.notepy_settings.json`:
absent, present but empty, present with text that is not valid JSON, or
present with text that parses to a JSON value. -/
inductive StoreContent where
  | missing : StoreContent
  | empty : StoreContent
  | malformed : StoreContent
  | valid (j : Json) : StoreContent

/-- Kinds of I/O failure an external read or write can raise
(OSError subclasses: FileNotFoundError, PermissionError, ...). -/
inductive IoErrorKind where
  | notFound : IoErrorKind
  | permission : IoErrorKind
  | diskFull : IoErrorKind
  | other : IoErrorKind
deriving DecidableEq

/-- The AppState dataclass during load_state's merge loop: Python's setattr
places arbitrary JSON values into any of the four fields, so all four are
`Json`-typed here. -/
structure RawState where
  recent_files : Json
  word_wrap : Json
  font_family : Json
  font_size : Json

/-- AppState.defaults as a RawState (recent_files = [], word_wrap = True,
font_family = "Segoe UI", font_size = 12). -/
def RawState.defaults : RawState :=
  ⟨Json.arr [], Json.bool true, Json.str "Segoe UI", Json.num 12⟩

/-- One iteration of load_state's merge loop: `if hasattr(s, k): setattr(s, k, v)`.
A key naming one of the four dataclass fields overwrites that field with the
JSON value as-is; any other key is skipped. -/
def setField (s : RawState) (k : String) (v : Json) : RawState :=
  if k = "recent_files" then { s with recent_files := v }
  else if k = "word_wrap" then { s with word_wrap := v }
  else if k = "font_family" then { s with font_family := v }
  else if k = "font_size" then { s with font_size := v }
  else s

/-- The AppState dataclass after load_state's post-processing: recent_files
is guaranteed to be a list of strings; the three scalar fields carry whatever
JSON value the merge left in them. -/
structure AppState where
  recent_files : List String
  word_wrap : Json
  font_family : Json
  font_size : Json

/-- AppState.defaults from the source. -/
def AppState.defaults : AppState :=
  ⟨[], Json.bool true, Json.str "Segoe UI", Json.num 12⟩

/-- load_state's post-processing of recent_files:
`if not isinstance(s.recent_files, list): s.recent_files = []` followed by
`[p for p in s.recent_files if isinstance(p, str)]`. -/
def coerceRecent (j : Json) : List String :=
  match j with
  | Json.arr xs =>
    xs.filterMap (fun x => match x with | Json.str s => some s | _ => none)
  | _ => []

/-- Packaging of the merged RawState into the final AppState. -/
def finalize (s : RawState) : AppState :=
  ⟨coerceRecent s.recent_files, s.word_wrap, s.font_family, s.font_size⟩

/-- load_state from src/main.py lines 36-50.  A missing file skips the body;
empty or malformed text makes json.loads raise; a parsed non-object makes
`data.items()` raise; every exception is caught and defaults returned.  A
parsed object is merged key by key over the defaults (dict order, last
writer wins) and then recent_files is coerced. -/
def load_state (store : StoreContent) : AppState :=
  match store with
  | StoreContent.valid (Json.obj fields) =>
    finalize (fields.foldl (fun s kv => setField s kv.1 kv.2) RawState.defaults)
  | _ => AppState.defaults

/-- json.dumps(state.__dict__): the four fields in dataclass declaration
order, recent_files re-encoded as a JSON array of strings. -/
def toJson (s : AppState) : Json :=
  Json.obj [("recent_files", Json.arr (s.recent_files.map Json.str)),
            ("word_wrap", s.word_wrap),
            ("font_family", s.font_family),
            ("font_size", s.font_size)]

/-- save_state from src/main.py lines 52-56: attempt to overwrite the
settings file with the serialized state; any exception from the write is
swallowed by `except: pass`, leaving the store as it was.  The caller always
gets plain control back (the codomain is the new store, never an error). -/
def save_state (write_fn : Json → Except IoErrorKind Unit) (store : StoreContent)
    (s : AppState) : StoreContent :=
  match write_fn (toJson s) with
  | Except.ok _ => StoreContent.valid (toJson s)
  | Except.error _ => store

/-- Python slice s[:i] on a list of characters, including negative indices. -/
def pyTake (l : List Char) (i : Int) : List Char :=
  if 0 ≤ i then l.take i.toNat else l.take (l.length - (-i).toNat)

/-- Python slice s[i:] on a list of characters, including negative indices. -/
def pyDrop (l : List Char) (i : Int) : List Char :=
  if 0 ≤ i then l.drop i.toNat else l.drop (l.length - (-i).toNat)

/-- elide_middle from src/main.py lines 58-63, with Python's int arithmetic
(head = max_len // 2 - 2 can be negative for tiny max_len) and slice
semantics preserved. -/
def elide_middle (path : String) (max_len : Nat) : String :=
  if path.length ≤ max_len then path
  else
    let head : Int := ((max_len / 2 : Nat) : Int) - 2
    let tail : Int := (max_len : Int) - head - 3
    ⟨pyTake path.data head ++ ('.' :: '.' :: '.' :: []) ++ pyDrop path.data (-tail)⟩

/-- MainWindow._add_recent (src/main.py lines 427-433) acting on the
recent_files list.  Path.resolve is the abstract `normalize` parameter;
`list.remove` removes the first occurrence only, as `List.erase` does. -/
def add_recent (normalize : String → String) (recent : List String)
    (path : String) : List String :=
  let p := normalize path
  let r := if p ∈ recent then recent.erase p else recent
  (p :: r).take 10

/-- MainWindow._open_recent (src/main.py lines 451-457) acting on the
recent_files list.  When the selected path still exists the list is left
alone (the file is opened); when it does not, exactly the entries equal to
the selected path are removed. -/
def open_recent_prune (exists_fn : String → Bool) (recent : List String)
    (path : String) : List String :=
  if exists_fn path then recent
  else recent.filter (fun p => p != path)

/-- Modelled from the spec (for comparison only): the pruneMissing operation
as the specification words it, "removes entries for which existsFn(path) is
false".  No function of the source has this behavior; it is declared solely
to be compared with `open_recent_prune`. -/
def claimedPruneMissing (exists_fn : String → Bool) (recent : List String) :
    List String :=
  recent.filter exists_fn

/-- os.path.basename on a POSIX path: everything after the last slash
(posixpath: p[p.rfind(sep) + 1:]). -/
def basename (p : String) : String :=
  ⟨(p.data.reverse.takeWhile (fun c => c != '/')).reverse⟩

/-- The DocumentTab model: the optional backing path, the Qt document's
modified flag, and the editor's text content. -/
structure DocumentTab where
  path : Option String
  dirty : Bool
  content : String

/-- A freshly constructed DocumentTab: no path, empty editor, not modified. -/
def DocumentTab.new : DocumentTab :=
  ⟨none, false, ""⟩

/-- A content-changing edit in the editor: the text changes and Qt marks the
document modified. -/
def DocumentTab.on_content_changed (t : DocumentTab) (text : String) : DocumentTab :=
  { t with content := text, dirty := true }

/-- DocumentTab.title (src/main.py lines 167-169).  Python truthiness: both
None and the empty string fall back to "Untitled". -/
def DocumentTab.title (t : DocumentTab) : String :=
  (match t.path with
   | some p => if p = "" then "Untitled" else basename p
   | none => "Untitled")
  ++ (if t.dirty then " •" else "")

/-- DocumentTab.load_file (src/main.py lines 171-176).  The read happens
first; if it raises, the exception propagates before any assignment, so the
returned state is the input state.  On success the editor text is replaced,
the path set, and the modified flag cleared. -/
def DocumentTab.load_file (t : DocumentTab) (p : String)
    (read_fn : String → Except IoErrorKind String) :
    Except IoErrorKind Unit × DocumentTab :=
  match read_fn p with
  | Except.error e => (Except.error e, t)
  | Except.ok text => (Except.ok (), ⟨some p, false, text⟩)

/-- DocumentTab.save_to (src/main.py lines 178-182).  The write happens
first; if it raises, the exception propagates before any assignment, so the
returned state is the input state.  On success the path is set and the
modified flag cleared; the content is untouched. -/
def DocumentTab.save_to (t : DocumentTab) (p : String)
    (write_fn : String → String → Except IoErrorKind Unit) :
    Except IoErrorKind Unit × DocumentTab :=
  match write_fn p t.content with
  | Except.error e => (Except.error e, t)
  | Except.ok _ => (Except.ok (), { t with path := some p, dirty := false })

/- Helper lemmas shared between claim theorems. -/

/-- Re-encoding a list of strings as a JSON array and coercing it back is the
identity. -/
theorem coerceRecent_map_str (l : List String) :
    coerceRecent (Json.arr (l.map Json.str)) = l := by
  induction l with
  | nil => rfl
  | cons x xs ih =>
    simpa [coerceRecent] using ih

/-- The two branches of _add_recent collapse to one erase-based form, since
erasing an absent element is the identity. -/
theorem add_recent_eq (normalize : String → String) (recent : List String)
    (path : String) :
    add_recent normalize recent path
      = ((normalize path) :: recent.erase (normalize path)).take 10 := by
  unfold add_recent
  by_cases h : normalize path ∈ recent
  · simp [h]
  · simp [h, List.erase_of_not_mem h]

/-- C2: load_state on a missing, empty, or syntactically invalid settings
file returns exactly the default record (recent_files = [], word_wrap = true,
font_family = "Segoe UI", font_size = 12); being a total function into
AppState, it propagates no error to its caller. -/
theorem load_state_bad_store_defaults (store : StoreContent)
    (h : store = StoreContent.missing ∨ store = StoreContent.empty
      ∨ store = StoreContent.malformed) :
    load_state store = AppState.defaults
    ∧ AppState.defaults.recent_files = []
    ∧ AppState.defaults.word_wrap = Json.bool true
    ∧ AppState.defaults.font_family = Json.str "Segoe UI"
    ∧ AppState.defaults.font_size = Json.num 12 := by
  refine ⟨?_, rfl, rfl, rfl, rfl⟩
  rcases h with h | h | h <;> subst h <;> rfl

/-- Witness for C2 at the concrete store state missing. -/
theorem load_state_bad_store_defaults_witness :
    load_state StoreContent.missing = AppState.defaults
    ∧ AppState.defaults.recent_files = []
    ∧ AppState.defaults.word_wrap = Json.bool true
    ∧ AppState.defaults.font_family = Json.str "Segoe UI"
    ∧ AppState.defaults.font_size = Json.num 12 :=
  load_state_bad_store_defaults StoreContent.missing (Or.inl rfl)

/-- C1 (counterexample): a persisted object binding word_wrap to the string
"yes" does NOT yield the default word_wrap; load_state stores the string
as-is, because the source type-checks only recent_files. -/
theorem load_state_wrong_typed_counterexample :
    (load_state (StoreContent.valid
        (Json.obj [("word_wrap", Json.str "yes")]))).word_wrap = Json.str "yes"
    ∧ (load_state (StoreContent.valid
        (Json.obj [("word_wrap", Json.str "yes")]))).word_wrap
      ≠ AppState.defaults.word_wrap :=
  ⟨rfl, fun h => Json.noConfusion h⟩

/-- C1 (amended): only recent_files is type-checked on load: a non-list
recent_files value is replaced by the default empty list while every
correctly-typed sibling field present in the data still overwrites its
default independently; a wrong-typed scalar field such as word_wrap is
instead stored as-is. -/
theorem load_state_field_merge_amended (v : Json)
    (hv : ∀ xs, v ≠ Json.arr xs) (b : Bool) (f : String) (n : Int) :
    load_state (StoreContent.valid (Json.obj
        [("recent_files", v), ("word_wrap", Json.bool b),
         ("font_family", Json.str f), ("font_size", Json.num n)]))
      = ⟨[], Json.bool b, Json.str f, Json.num n⟩
    ∧ (∀ w : Json,
        (load_state (StoreContent.valid
          (Json.obj [("word_wrap", w)]))).word_wrap = w) := by
  constructor
  · show finalize ⟨v, Json.bool b, Json.str f, Json.num n⟩ = _
    unfold finalize
    congr 1
    cases v <;> first | rfl | exact absurd rfl (hv _)
  · intro w
    rfl

/-- Witness for C1's amended theorem at a concrete wrong-typed
recent_files value. -/
theorem load_state_field_merge_amended_witness :
    load_state (StoreContent.valid (Json.obj
        [("recent_files", Json.str "oops"), ("word_wrap", Json.bool false),
         ("font_family", Json.str "Arial"), ("font_size", Json.num 14)]))
      = ⟨[], Json.bool false, Json.str "Arial", Json.num 14⟩
    ∧ (∀ w : Json,
        (load_state (StoreContent.valid
          (Json.obj [("word_wrap", w)]))).word_wrap = w) :=
  load_state_field_merge_amended (Json.str "oops")
    (fun _ h => Json.noConfusion h) false "Arial" 14

/-- C3: on a duplicate-free recent list, _add_recent produces a
duplicate-free list of length at most 10 whose head is the normalized path;
on ["a","b"] with "a" (already canonical) it yields ["a","b"], and eleven
successive insertions of eleven distinct canonical paths leave exactly the
ten most recent, most-recent-first. -/
theorem add_recent_spec (normalize : String → String) (recent : List String)
    (path : String) (hnd : recent.Nodup) :
    ((add_recent normalize recent path).Nodup
      ∧ (add_recent normalize recent path).length ≤ 10
      ∧ (add_recent normalize recent path).head? = some (normalize path))
    ∧ add_recent (fun s => s) ["a", "b"] "a" = ["a", "b"]
    ∧ List.foldl (add_recent (fun s => s)) []
        ["p01", "p02", "p03", "p04", "p05", "p06",
         "p07", "p08", "p09", "p10", "p11"]
      = ["p11", "p10", "p09", "p08", "p07", "p06", "p05", "p04", "p03", "p02"] := by
  refine ⟨⟨?_, ?_, ?_⟩, by decide, by decide⟩
  · rw [add_recent_eq]
    refine List.Nodup.sublist (List.take_sublist _ _) ?_
    exact List.nodup_cons.mpr ⟨hnd.not_mem_erase, List.Nodup.erase _ hnd⟩
  · rw [add_recent_eq]
    simp [List.length_take]
  · rw [add_recent_eq]
    rfl

/-- Witness for C3 at the concrete list ["a","b"] and path "a". -/
theorem add_recent_spec_witness :
    ((add_recent (fun s => s) ["a", "b"] "a").Nodup
      ∧ (add_recent (fun s => s) ["a", "b"] "a").length ≤ 10
      ∧ (add_recent (fun s => s) ["a", "b"] "a").head? = some "a")
    ∧ add_recent (fun s => s) ["a", "b"] "a" = ["a", "b"]
    ∧ List.foldl (add_recent (fun s => s)) []
        ["p01", "p02", "p03", "p04", "p05", "p06",
         "p07", "p08", "p09", "p10", "p11"]
      = ["p11", "p10", "p09", "p08", "p07", "p06", "p05", "p04", "p03", "p02"] :=
  add_recent_spec (fun s => s) ["a", "b"] "a" (by decide)

/-- C4 (counterexample): with an existence predicate that is false
everywhere, pruning after selecting the missing entry "a" keeps "b" even
though the predicate is false at "b" as well, so the operation does not
remove all entries failing the predicate (the spec-worded
claimedPruneMissing would). -/
theorem open_recent_prune_counterexample :
    open_recent_prune (fun _ => false) ["a", "b"] "a" = ["b"]
    ∧ open_recent_prune (fun _ => false) ["a", "b"] "a"
        ≠ claimedPruneMissing (fun _ => false) ["a", "b"]
    ∧ "b" ∈ open_recent_prune (fun _ => false) ["a", "b"] "a"
    ∧ (fun _ => false : String → Bool) "b" = false := by
  refine ⟨by decide, by decide, by decide, rfl⟩

/-- C4 (amended): _open_recent prunes only when the selected path no longer
exists, and then removes exactly the entries equal to that path, preserving
the relative order of the survivors; when the selected path exists the list
is unchanged. -/
theorem open_recent_prune_amended (exists_fn : String → Bool)
    (recent : List String) (p : String) :
    (exists_fn p = true → open_recent_prune exists_fn recent p = recent)
    ∧ (exists_fn p = false →
        (∀ q, q ∈ open_recent_prune exists_fn recent p ↔ q ∈ recent ∧ q ≠ p)
        ∧ (open_recent_prune exists_fn recent p).Sublist recent) := by
  constructor
  · intro h
    simp [open_recent_prune, h]
  · intro h
    constructor
    · intro q
      simp [open_recent_prune, h, List.mem_filter, bne_iff_ne]
    · simp only [open_recent_prune, h, Bool.false_eq_true, if_false]
      exact List.filter_sublist _

/-- Witness for C4's amended theorem at a concrete predicate, list and
selected path, exercising the not-exists branch. -/
theorem open_recent_prune_amended_witness :
    (∀ q, q ∈ open_recent_prune (fun _ => false) ["a", "b"] "a"
      ↔ q ∈ ["a", "b"] ∧ q ≠ "a")
    ∧ (open_recent_prune (fun _ => false) ["a", "b"] "a").Sublist ["a", "b"] :=
  (open_recent_prune_amended (fun _ => false) ["a", "b"] "a").2 rfl

/-- takeWhile over a list whose prefix satisfies the predicate throughout,
followed by a failing element, returns exactly that prefix. -/
theorem takeWhile_append_all {α : Type} (q : α → Bool) (l₁ : List α) (a : α)
    (l₂ : List α) (h1 : ∀ x ∈ l₁, q x = true) (h2 : q a = false) :
    (l₁ ++ a :: l₂).takeWhile q = l₁ := by
  induction l₁ with
  | nil => simp [List.takeWhile_cons, h2]
  | cons x xs ih =>
    have hx : q x = true := h1 x (List.mem_cons_self x xs)
    have ih2 := ih (fun y hy => h1 y (List.mem_cons_of_mem _ hy))
    simp [List.takeWhile_cons, hx, ih2]

/-- The character data of a directory-slash-name concatenation. -/
theorem data_append_slash (d n : String) :
    (d ++ "/" ++ n).data = d.data ++ '/' :: n.data := by
  rw [String.data_append, String.data_append]
  show d.data ++ ('/' :: []) ++ n.data = _
  simp

/-- A string containing a slash is not the empty string. -/
theorem append_slash_ne_empty (d n : String) : d ++ "/" ++ n ≠ "" := by
  intro heq
  have hdata := congrArg String.data heq
  rw [data_append_slash] at hdata
  simp at hdata

/-- basename strips every directory component: on a path of the form
dir ++ "/" ++ name with a slash-free name it returns the name. -/
theorem basename_append (d n : String) (h : '/' ∉ n.data) :
    basename (d ++ "/" ++ n) = n := by
  apply String.ext
  show ((d ++ "/" ++ n).data.reverse.takeWhile (fun c => c != '/')).reverse = n.data
  rw [data_append_slash]
  have hrev : (d.data ++ '/' :: n.data).reverse
      = n.data.reverse ++ '/' :: d.data.reverse := by
    simp
  rw [hrev]
  have hall : ∀ x ∈ n.data.reverse, (x != '/') = true := by
    intro x hx
    have hxn : x ∈ n.data := List.mem_reverse.mp hx
    have hxne : x ≠ '/' := fun heq => h (heq ▸ hxn)
    simpa [bne_iff_ne] using hxne
  rw [takeWhile_append_all _ _ _ _ hall (by simp), List.reverse_reverse]

/-- C5: title is the base name of the backing path (directory components
stripped), or "Untitled" when the path is absent, suffixed with the single
dirty glyph preceded by a space exactly when the tab is dirty; a fresh tab
titles "Untitled", after an edit "Untitled •", and after a successful save
to /x/y/report.txt exactly "report.txt". -/
theorem title_spec :
    (∀ t : DocumentTab, t.path = none →
      t.title = "Untitled" ++ (if t.dirty then " •" else ""))
    ∧ (∀ (d n : String) (dirty : Bool) (content : String), '/' ∉ n.data →
        DocumentTab.title ⟨some (d ++ "/" ++ n), dirty, content⟩
          = n ++ (if dirty then " •" else ""))
    ∧ DocumentTab.new.title = "Untitled"
    ∧ (DocumentTab.new.on_content_changed "x").title = "Untitled •"
    ∧ ((DocumentTab.new.save_to "/x/y/report.txt"
        (fun _ _ => Except.ok ())).2).title = "report.txt" := by
  refine ⟨?_, ?_, rfl, rfl, by decide⟩
  · intro t ht
    simp [DocumentTab.title, ht]
  · intro d n dirty content h
    show (if (d ++ "/" ++ n) = "" then "Untitled" else basename (d ++ "/" ++ n))
        ++ (if dirty then " •" else "") = n ++ (if dirty then " •" else "")
    rw [if_neg (append_slash_ne_empty d n), basename_append d n h]

/-- Witness for C5 at a concrete two-component path with a dirty and a clean
tab. -/
theorem title_spec_witness :
    DocumentTab.title ⟨some ("/x/y" ++ "/" ++ "report.txt"), false, ""⟩
      = "report.txt" ++ (if false then " •" else "") :=
  title_spec.2.1 "/x/y" "report.txt" false "" (by decide)

/-- C6: when the underlying read or write raises, load_file and save_to
surface the IoErrorKind and return the model exactly as it was: path, dirty
flag and content are unchanged (no partial state update). -/
theorem io_failure_leaves_model_unchanged (t : DocumentTab) (p : String)
    (read_fn : String → Except IoErrorKind String)
    (write_fn : String → String → Except IoErrorKind Unit)
    (e e2 : IoErrorKind) :
    (read_fn p = Except.error e →
      t.load_file p read_fn = (Except.error e, t)
      ∧ (t.load_file p read_fn).2.path = t.path
      ∧ (t.load_file p read_fn).2.dirty = t.dirty
      ∧ (t.load_file p read_fn).2.content = t.content)
    ∧ (write_fn p t.content = Except.error e2 →
      t.save_to p write_fn = (Except.error e2, t)
      ∧ (t.save_to p write_fn).2.path = t.path
      ∧ (t.save_to p write_fn).2.dirty = t.dirty
      ∧ (t.save_to p write_fn).2.content = t.content) := by
  constructor
  · intro h
    simp [DocumentTab.load_file, h]
  · intro h
    simp [DocumentTab.save_to, h]

/-- Witness for C6 at a fresh tab and a read that always fails. -/
theorem io_failure_leaves_model_unchanged_witness :
    DocumentTab.new.load_file "/nope"
        (fun _ => Except.error IoErrorKind.notFound)
      = (Except.error IoErrorKind.notFound, DocumentTab.new)
    ∧ (DocumentTab.new.load_file "/nope"
        (fun _ => Except.error IoErrorKind.notFound)).2.path
      = DocumentTab.new.path
    ∧ (DocumentTab.new.load_file "/nope"
        (fun _ => Except.error IoErrorKind.notFound)).2.dirty
      = DocumentTab.new.dirty
    ∧ (DocumentTab.new.load_file "/nope"
        (fun _ => Except.error IoErrorKind.notFound)).2.content
      = DocumentTab.new.content :=
  (io_failure_leaves_model_unchanged DocumentTab.new "/nope"
    (fun _ => Except.error IoErrorKind.notFound)
    (fun _ _ => Except.error IoErrorKind.permission)
    IoErrorKind.notFound IoErrorKind.permission).1 rfl

/-- C7: a successful save sets the backing path and clears the dirty flag
(content untouched), a successful load sets the backing path, clears the
dirty flag and shows a title without the dirty marker, and the concrete
scenario empty tab, edit "hello", save to /tmp/note.txt ends with title
"note.txt", dirty false and path /tmp/note.txt. -/
theorem save_load_success_state (t : DocumentTab) (p text : String)
    (read_fn : String → Except IoErrorKind String)
    (write_fn : String → String → Except IoErrorKind Unit) :
    (write_fn p t.content = Except.ok () →
      (t.save_to p write_fn).2.path = some p
      ∧ (t.save_to p write_fn).2.dirty = false
      ∧ (t.save_to p write_fn).2.content = t.content
      ∧ (t.save_to p write_fn).1 = Except.ok ())
    ∧ (read_fn p = Except.ok text →
      (t.load_file p read_fn).2 = ⟨some p, false, text⟩
      ∧ (t.load_file p read_fn).2.title
        = (if p = "" then "Untitled" else basename p))
    ∧ ((DocumentTab.new.on_content_changed "hello").save_to "/tmp/note.txt"
        (fun _ _ => Except.ok ())).2.title = "note.txt"
    ∧ ((DocumentTab.new.on_content_changed "hello").save_to "/tmp/note.txt"
        (fun _ _ => Except.ok ())).2.dirty = false
    ∧ ((DocumentTab.new.on_content_changed "hello").save_to "/tmp/note.txt"
        (fun _ _ => Except.ok ())).2.path = some "/tmp/note.txt" := by
  refine ⟨?_, ?_, by decide, rfl, rfl⟩
  · intro h
    simp [DocumentTab.save_to, h]
  · intro h
    have h2 : (t.load_file p read_fn).2 = ⟨some p, false, text⟩ := by
      simp [DocumentTab.load_file, h]
    refine ⟨h2, ?_⟩
    rw [h2]
    show (if p = "" then "Untitled" else basename p) ++ "" = _
    exact String.append_empty _

/-- Witness for C7 at a fresh tab with an always-succeeding write and an
always-succeeding read. -/
theorem save_load_success_state_witness :
    ((DocumentTab.new.save_to "/a/b.txt" (fun _ _ => Except.ok ())).2.path
        = some "/a/b.txt"
      ∧ (DocumentTab.new.save_to "/a/b.txt" (fun _ _ => Except.ok ())).2.dirty
        = false
      ∧ (DocumentTab.new.save_to "/a/b.txt" (fun _ _ => Except.ok ())).2.content
        = ""
      ∧ (DocumentTab.new.save_to "/a/b.txt" (fun _ _ => Except.ok ())).1
        = Except.ok ())
    ∧ ((DocumentTab.new.load_file "/a/b.txt" (fun _ => Except.ok "x")).2
        = ⟨some "/a/b.txt", false, "x"⟩
      ∧ (DocumentTab.new.load_file "/a/b.txt" (fun _ => Except.ok "x")).2.title
        = (if "/a/b.txt" = "" then "Untitled" else basename "/a/b.txt")) :=
  ⟨(save_load_success_state DocumentTab.new "/a/b.txt" "x"
      (fun _ => Except.ok "x") (fun _ _ => Except.ok ())).1 rfl,
   (save_load_success_state DocumentTab.new "/a/b.txt" "x"
      (fun _ => Except.ok "x") (fun _ _ => Except.ok ())).2.1 rfl⟩

/-- C8: save followed by load round-trips every valid preference record
(recent_files at most 10 distinct strings, boolean word_wrap, string
font_family, positive integer font_size): all four fields come back equal. -/
theorem save_load_round_trip (s : AppState) (store : StoreContent)
    (h1 : s.recent_files.length ≤ 10) (h2 : s.recent_files.Nodup)
    (h3 : ∃ b, s.word_wrap = Json.bool b)
    (h4 : ∃ f, s.font_family = Json.str f)
    (h5 : ∃ n, 0 < n ∧ s.font_size = Json.num n) :
    load_state (save_state (fun _ => Except.ok ()) store s) = s := by
  show load_state (StoreContent.valid (toJson s)) = s
  cases s with
  | mk rf ww ff fs =>
    show AppState.mk (coerceRecent (Json.arr (rf.map Json.str))) ww ff fs
        = AppState.mk rf ww ff fs
    rw [coerceRecent_map_str]

/-- Witness for C8 at the default record and a missing prior store. -/
theorem save_load_round_trip_witness :
    load_state (save_state (fun _ => Except.ok ()) StoreContent.missing
        AppState.defaults)
      = AppState.defaults :=
  save_load_round_trip AppState.defaults StoreContent.missing (by decide)
    (by decide) ⟨true, rfl⟩ ⟨"Segoe UI", rfl⟩ ⟨12, by decide, rfl⟩

/-- C9: when the backing write fails (permission denied, disk full, ...),
save_state swallows the exception and returns normally to its caller,
leaving the stored content as it was. -/
theorem save_state_swallows_write_errors
    (write_fn : Json → Except IoErrorKind Unit) (store : StoreContent)
    (s : AppState) (e : IoErrorKind)
    (h : write_fn (toJson s) = Except.error e) :
    save_state write_fn store s = store := by
  simp [save_state, h]

/-- Witness for C9 at a write backend that always reports permission
denied. -/
theorem save_state_swallows_write_errors_witness :
    save_state (fun _ => Except.error IoErrorKind.permission)
        StoreContent.missing AppState.defaults
      = StoreContent.missing :=
  save_state_swallows_write_errors
    (fun _ => Except.error IoErrorKind.permission)
    StoreContent.missing AppState.defaults IoErrorKind.permission rfl

/-- pyTake at a nonnegative index is a plain take. -/
theorem pyTake_nonneg (l : List Char) (i : Int) (h : 0 ≤ i) :
    pyTake l i = l.take i.toNat := by
  simp [pyTake, h]

/-- pyDrop at a negative index drops all but the trailing -i characters. -/
theorem pyDrop_neg (l : List Char) (i : Int) (h : ¬ 0 ≤ i) :
    pyDrop l i = l.drop (l.length - (-i).toNat) := by
  simp [pyDrop, h]

/-- The character data of elide_middle in the truncating branch, with the
Python int arithmetic resolved to natural-number indices. -/
theorem elide_middle_data (path : String) (max_len : Nat) (h6 : 6 ≤ max_len)
    (hlt : max_len < path.length) :
    (elide_middle path max_len).data
      = path.data.take (max_len / 2 - 2) ++ ('.' :: '.' :: '.' :: [])
        ++ path.data.drop (path.data.length - (max_len - max_len / 2 - 1)) := by
  have hcond : ¬ path.length ≤ max_len := by omega
  have hhead : (0:Int) ≤ ((max_len / 2 : Nat) : Int) - 2 := by omega
  have htailneg :
      ¬ (0:Int) ≤ -((max_len : Int) - (((max_len / 2 : Nat) : Int) - 2) - 3) := by
    omega
  have e1 : (((max_len / 2 : Nat) : Int) - 2).toNat = max_len / 2 - 2 := by omega
  have e2 : (-(-((max_len : Int) - (((max_len / 2 : Nat) : Int) - 2) - 3))).toNat
      = max_len - max_len / 2 - 1 := by omega
  unfold elide_middle
  rw [if_neg hcond]
  show pyTake path.data (((max_len / 2 : Nat) : Int) - 2)
      ++ ('.' :: '.' :: '.' :: [])
      ++ pyDrop path.data
          (-((max_len : Int) - (((max_len / 2 : Nat) : Int) - 2) - 3))
    = _
  rw [pyTake_nonneg _ _ hhead, pyDrop_neg _ _ htailneg, e1, e2]

/-- C10: for max_len at least 6, elide_middle returns the path unchanged
when it fits, and otherwise a string of length exactly max_len made of a
prefix of the path, the three characters "...", and a suffix of the path. -/
theorem elide_middle_spec (path : String) (max_len : Nat) (h6 : 6 ≤ max_len) :
    (path.length ≤ max_len → elide_middle path max_len = path)
    ∧ (max_len < path.length →
        (elide_middle path max_len).length = max_len
        ∧ ∃ pre suf : List Char,
            (elide_middle path max_len).data
              = pre ++ ('.' :: '.' :: '.' :: []) ++ suf
            ∧ (∃ r, path.data = pre ++ r)
            ∧ (∃ r, path.data = r ++ suf)) := by
  constructor
  · intro h
    unfold elide_middle
    rw [if_pos h]
  · intro hlt
    have hdata := elide_middle_data path max_len h6 hlt
    have hlen : path.data.length = path.length := rfl
    constructor
    · show (elide_middle path max_len).data.length = max_len
      rw [hdata]
      simp only [List.length_append, List.length_take, List.length_drop,
        List.length_cons, List.length_nil]
      omega
    · exact ⟨path.data.take (max_len / 2 - 2),
        path.data.drop (path.data.length - (max_len - max_len / 2 - 1)),
        hdata,
        ⟨path.data.drop (max_len / 2 - 2), (List.take_append_drop _ _).symm⟩,
        ⟨path.data.take (path.data.length - (max_len - max_len / 2 - 1)),
          (List.take_append_drop _ _).symm⟩⟩

/-- Witness for C10 at a 16-character path elided to length 10, exercising
the truncating branch. -/
theorem elide_middle_spec_witness :
    (elide_middle "abcdefghijklmnop" 10).length = 10
    ∧ ∃ pre suf : List Char,
        (elide_middle "abcdefghijklmnop" 10).data
          = pre ++ ('.' :: '.' :: '.' :: []) ++ suf
        ∧ (∃ r, ("abcdefghijklmnop" : String).data = pre ++ r)
        ∧ (∃ r, ("abcdefghijklmnop" : String).data = r ++ suf) :=
  (elide_middle_spec "abcdefghijklmnop" 10 (by decide)).2 (by decide)
